import Mathlib

/-!
Shallow embedding of the `TranslationChild` per-frame translation orchestrator
(`src/core/ts/content-scripts/dom-translation-content-script.js/TranslationChild`-style
class, here the file `src/unnamed/part_001`) of the bergamot-browser-extension
repository, together with theorems about its observable behaviour.

Modelling conventions:
- Side effects performed by the orchestrator (state patches sent through the
  extension-state broadcaster, calls into the language detector, showing the
  translation) are recorded as an ordered trace of `Effect`s, in the order the
  source code issues (schedules) them.
- `setTimeout(..., 0)`-deferred state patches are modelled for the status
  broadcaster by an explicit FIFO `Scheduler` queue; in the per-method effect
  traces a deferred patch is recorded at the point where it is scheduled,
  which is also the FIFO order in which the host event loop runs it.
- Promise-valued environment calls (the language detector, the batching
  translator) are modelled by passing their eventual outcome as an explicit
  argument; the call itself is recorded in the trace.
- DOM nodes are opaque `Nat` handles; the text extraction performed by
  collaborator modules that are outside this file's source
  (`getTranslationNodes`, `TranslationDocument.generateTextForItem`) is
  abstracted into input fields holding the strings they would produce.
- JavaScript strings are modelled as Lean `String`s; `substr`, `split`, `join`
  and the one regex replace used by the source are given explicit executable
  models over the character list.
-/

namespace Bergamot

/-- The translation status enumeration of the extension
(`TranslationStatus` in `shared-resources/models/BaseTranslationState`). -/
inductive TranslationStatus where
  | UNAVAILABLE
  | DETECTING_LANGUAGE
  | LANGUAGE_NOT_DETECTED
  | OFFER
  | TRANSLATING
  | TRANSLATED
  | ERROR
deriving DecidableEq, Repr

/-- Result of a language detection attempt (`DetectedLanguageResults`):
a language code plus a confidence flag. -/
structure DetectedLanguageResults where
  language : String
  confident : Bool
deriving DecidableEq, Repr

/-- The value carried by a JSON-patch-like state patch operation. -/
inductive PatchValue where
  | status (s : TranslationStatus)
  | detected (r : DetectedLanguageResults)
deriving DecidableEq, Repr

/-- One JSON-patch-like operation sent to
`ExtensionState.patchDocumentTranslationStateByFrameInfo`. -/
structure PatchOperation where
  op : String
  path : List String
  value : PatchValue
deriving DecidableEq, Repr

/-- Observable side effects of the orchestrator, in program order.
`patchDocumentTranslationState ops` records a (deferred) call to
`patchDocumentTranslationStateByFrameInfo` with the given operation list;
`deleteDocumentTranslationState` records a (deferred) call to
`deleteDocumentTranslationStateByFrameInfo`; `detectLanguage sample` records
the awaited call into the language detector proxy; `showTranslation` records
the call to `translationDocument.showTranslation()`. -/
inductive Effect where
  | patchDocumentTranslationState (ops : List PatchOperation)
  | deleteDocumentTranslationState
  | detectLanguage (sample : String)
  | showTranslation
deriving DecidableEq, Repr

/-- `TranslationChild.broadcastUpdatedTranslationStatus`: schedules (via
`setTimeout(..., 0)`) one patch call consisting of a single `replace`
operation on the `translationStatus` path. This is the effect that one call
produces. -/
def broadcastUpdatedTranslationStatus (translationStatus : TranslationStatus) : Effect :=
  Effect.patchDocumentTranslationState
    [{ op := "replace", path := ["translationStatus"],
       value := PatchValue.status translationStatus }]

/-- A translatable unit ("root") of a `TranslationDocument`. `nodeRef` is the
opaque handle of its DOM node; `generatedText` is the string that
`translationDocument.generateTextForItem` returns for it (that method lives in
the `TranslationDocument` module, outside this file's source, so its output is
taken as an input of the model). -/
structure TranslationItem where
  nodeRef : Nat
  generatedText : String
deriving DecidableEq, Repr

/-- The live document as seen by `TranslationChild`: its location URL, the
`textContent` strings of the translation nodes that `getTranslationNodes`
finds in its body, and the translatable units that constructing a
`TranslationDocument` over it would extract right now. -/
structure Document where
  location : String
  translationNodeTexts : List String
  extractedRoots : List TranslationItem
deriving DecidableEq, Repr

/-- Modelled from the spec: the Translation Document Model owns the ordered
sequence of extracted units ("roots"), the declared source/target language
pair, and a translation-error flag. Only the fields that `TranslationChild`
reads or writes are modelled; the module itself
(`TranslationDocument.ts`) is not part of this file's source. -/
structure TranslationDocument where
  roots : List TranslationItem
  translatedFrom : Option String
  translatedTo : Option String
  translationError : Bool
deriving DecidableEq, Repr

/-- Modelled from the spec: `new TranslationDocument(document)` extracts the
translatable units from the document's current content. -/
def TranslationDocument.new (doc : Document) : TranslationDocument :=
  { roots := doc.extractedRoots
    translatedFrom := none
    translatedTo := none
    translationError := false }

/-- The slice of the content window that `TranslationChild` uses: the
expando property `contentWindow.translationDocument`. -/
structure ContentWindow where
  translationDocument : Option TranslationDocument
deriving DecidableEq, Repr

/-- JavaScript `String.prototype.startsWith`: whether `pre`'s characters are
a prefix of `s`'s characters. -/
def jsStartsWith (s pre : String) : Bool :=
  pre.data.isPrefixOf s.data

/-- The local helper `domElementsToStringWithMaxLength` of
`attemptToDetectLanguage`: join the nodes' text contents with `"\n"` and
truncate to the first `maxLength` characters (JavaScript
`.join("\n").substr(0, maxLength)`). -/
def domElementsToStringWithMaxLength (elements : List String) (maxLength : Nat) : String :=
  String.mk ((String.intercalate "\n" elements).data.take maxLength)

/-- The 60 KiB text sample that `attemptToDetectLanguage` builds from the
translation nodes' text contents. -/
def detectionSample (texts : List String) : String :=
  domElementsToStringWithMaxLength texts (60 * 1024)

/-- `TranslationChild.attemptToDetectLanguage`, as the trace of effects it
issues. `result` is the outcome the language detector proxy delivers if it is
called; `contentWindowAlive` is whether `this.contentWindow` is still truthy
when the detector's promise resolves. -/
def attemptToDetectLanguage (doc : Document) (result : DetectedLanguageResults)
    (contentWindowAlive : Bool) : List Effect :=
  let url := doc.location
  if !(jsStartsWith url "http://") && !(jsStartsWith url "https://") then
    [broadcastUpdatedTranslationStatus TranslationStatus.UNAVAILABLE]
  else
    broadcastUpdatedTranslationStatus TranslationStatus.DETECTING_LANGUAGE ::
      (let sample := domElementsToStringWithMaxLength doc.translationNodeTexts (60 * 1024)
       if sample.length < 100 then
         [broadcastUpdatedTranslationStatus TranslationStatus.LANGUAGE_NOT_DETECTED]
       else
         Effect.detectLanguage sample ::
           (if !contentWindowAlive then
              [Effect.deleteDocumentTranslationState]
            else
              Effect.patchDocumentTranslationState
                  [{ op := "add", path := ["detectedLanguageResults"],
                     value := PatchValue.detected result }] ::
                (if !result.confident then
                   [broadcastUpdatedTranslationStatus TranslationStatus.LANGUAGE_NOT_DETECTED]
                 else
                   [broadcastUpdatedTranslationStatus TranslationStatus.OFFER])))

/-- Result of a `doTranslation` run: the updated content window (its
`translationDocument` expando) and the trace of effects. -/
structure DoTranslationResult where
  contentWindow : ContentWindow
  events : List Effect
deriving DecidableEq, Repr

/-- `TranslationChild.doTranslation(aFrom, aTo)`. `translateOutcome` is the
settlement of the batching translator's `translator.translate()` promise;
`windowAliveAtResult` models whether the owning frame is still alive when
that promise settles — the source code of `doTranslation` never consults it
(it has no staleness check, unlike `attemptToDetectLanguage`). -/
def doTranslation (cw : ContentWindow) (doc : Document) (aFrom aTo : String)
    (translateOutcome : Except String Unit) (windowAliveAtResult : Bool) :
    DoTranslationResult :=
  let translationDocument :=
    match cw.translationDocument with
    | some existing => existing
    | none => TranslationDocument.new doc
  let td : TranslationDocument :=
    { translationDocument with
        translatedFrom := some aFrom
        translatedTo := some aTo
        translationError := false }
  match translateOutcome with
  | Except.ok _ =>
    { contentWindow := { translationDocument := some td }
      events := [broadcastUpdatedTranslationStatus TranslationStatus.TRANSLATING,
                 Effect.showTranslation,
                 broadcastUpdatedTranslationStatus TranslationStatus.TRANSLATED] }
  | Except.error _ =>
    { contentWindow := { translationDocument := some { td with translationError := true } }
      events := [broadcastUpdatedTranslationStatus TranslationStatus.TRANSLATING,
                 broadcastUpdatedTranslationStatus TranslationStatus.ERROR] }

/-- The host's FIFO queue of `setTimeout(..., 0)` callbacks, restricted to the
deferred patch calls that `broadcastUpdatedTranslationStatus` registers. -/
structure Scheduler where
  tasks : List Effect
deriving DecidableEq, Repr

/-- The empty timeout queue. -/
def Scheduler.empty : Scheduler := { tasks := [] }

/-- One call to `broadcastUpdatedTranslationStatus`: appends its deferred
patch call to the back of the timeout queue (it runs on the next tick, after
the callbacks already queued). -/
def scheduleBroadcast (sched : Scheduler) (translationStatus : TranslationStatus) :
    Scheduler :=
  { tasks := sched.tasks ++ [broadcastUpdatedTranslationStatus translationStatus] }

/-- Draining the timeout queue runs the deferred patch calls in FIFO order;
each queued task delivers exactly one patch notification. -/
def runScheduler (sched : Scheduler) : List Effect :=
  sched.tasks

/-- After the regex engine has consumed the `<` that starts a match of
`<[^>]*>?`, the rest of the match is every following non-`>` character
(`[^>]*`, greedy) plus the closing `>` when present (`>?`): what remains of
the input is the tail after the first `>`, or `[]` when there is none. -/
def dropTagRemainder (l : List Char) : List Char :=
  (l.dropWhile (fun c => c != '>')).tail

theorem dropTagRemainder_length_le (l : List Char) :
    (dropTagRemainder l).length ≤ l.length := by
  have h1 : (l.dropWhile (fun c => c != '>')).length ≤ l.length :=
    (List.dropWhile_sublist (fun c => c != '>') (l := l)).length_le
  have h2 : (dropTagRemainder l).length ≤ (l.dropWhile (fun c => c != '>')).length := by
    simp [dropTagRemainder, List.length_tail]
  exact Nat.le_trans h2 h1

/-- Global replacement of the regex `/<[^>]*>?/gm` by a single space
(`text.replace(/<[^>]*>?/gm, " ")` in `getDocumentTranslationStatistics`),
over the character list: the regex matches at each `<`, consumes the
following non-`>` characters and an optional `>`, and the whole match is
replaced by one `' '`; characters outside matches are kept. -/
def stripTags : List Char → List Char
  | [] => []
  | c :: rest =>
    if c = '<' then ' ' :: stripTags (dropTagRemainder rest)
    else c :: stripTags rest
termination_by l => l.length
decreasing_by
  · have := dropTagRemainder_length_le rest
    simp only [List.length_cons]
    omega
  · simp only [List.length_cons]
    omega

/-- The per-root text post-processing of `getDocumentTranslationStatistics`:
`text.replace(/<[^>]*>?/gm, " ").trim()`. -/
def processText (s : String) : String :=
  (String.mk (stripTags s.data)).trim

/-- JavaScript `String.prototype.split` with a single-character separator:
the list of (possibly empty) fields between occurrences of the separator.
`"".split(sep)` is `[""]`; a string with `n` separator occurrences has
`n + 1` fields. -/
def splitOnChar (sep : Char) : List Char → List (List Char)
  | [] => [[]]
  | c :: rest =>
    if c = sep then [] :: splitOnChar sep rest
    else
      match splitOnChar sep rest with
      | [] => [[c]]
      | field :: fields => (c :: field) :: fields

theorem splitOnChar_ne_nil (sep : Char) (l : List Char) : splitOnChar sep l ≠ [] := by
  induction l with
  | nil => simp [splitOnChar]
  | cons c rest ih =>
    by_cases h : c = sep
    · simp [splitOnChar, h]
    · simp only [splitOnChar, if_neg h]
      cases hsp : splitOnChar sep rest with
      | nil => exact absurd hsp ih
      | cons f fs => simp

theorem splitOnChar_length (sep : Char) (l : List Char) :
    (splitOnChar sep l).length = l.count sep + 1 := by
  induction l with
  | nil => simp [splitOnChar]
  | cons c rest ih =>
    by_cases h : c = sep
    · simp only [splitOnChar, if_pos h, List.length_cons, ih, List.count_cons]
      subst h
      simp
    · simp only [splitOnChar, if_neg h]
      cases hsp : splitOnChar sep rest with
      | nil => exact absurd hsp (splitOnChar_ne_nil sep rest)
      | cons f fs =>
        rw [hsp] at ih
        simp only [List.length_cons] at ih ⊢
        have hcount : (c :: rest).count sep = rest.count sep := by
          simp [List.count_cons, Ne.symm h]
        omega

/-- The word count formula of the source,
`texts.join(" ").split(" ").length`, over a list of texts. -/
def joinSplitWordCount (texts : List String) : Nat :=
  (splitOnChar ' ' (String.intercalate " " texts).data).length

/-- The loop of `getDocumentTranslationStatistics` over
`translationDocument.roots`: skip roots whose generated text is falsy (empty),
post-process the text, and push it onto `texts`, onto `textsInViewport` when
the root's node is geometrically inside the viewport, and onto
`textsVisibleInViewport` when the intersection observer reported the node. -/
def statsLoop (inViewport : Nat → Bool) (visibleNodes : List Nat) :
    List TranslationItem → List String × List String × List String
  | [] => ([], [], [])
  | root :: rest =>
    let (texts, textsInViewport, textsVisibleInViewport) :=
      statsLoop inViewport visibleNodes rest
    if root.generatedText = "" then
      (texts, textsInViewport, textsVisibleInViewport)
    else
      let text := processText root.generatedText
      (text :: texts,
       if inViewport root.nodeRef then text :: textsInViewport else textsInViewport,
       if visibleNodes.contains root.nodeRef then text :: textsVisibleInViewport
       else textsVisibleInViewport)

/-- The record that `getDocumentTranslationStatistics` resolves with. -/
structure DocumentTranslationStatistics where
  texts : List String
  textsInViewport : List String
  textsVisibleInViewport : List String
  wordCount : Nat
  wordCountInViewport : Nat
  wordCountVisibleInViewport : Nat
deriving DecidableEq, Repr

/-- `TranslationChild.getDocumentTranslationStatistics`. `inViewport` is the
geometric `isElementInViewport` test on a root's node; `visibleNodes` is the
list of nodes that `getElementsVisibleInViewport`'s one-shot intersection
observation resolved with. -/
def getDocumentTranslationStatistics (cw : ContentWindow) (doc : Document)
    (inViewport : Nat → Bool) (visibleNodes : List Nat) :
    DocumentTranslationStatistics :=
  let translationDocument :=
    match cw.translationDocument with
    | some existing => existing
    | none => TranslationDocument.new doc
  let lists := statsLoop inViewport visibleNodes translationDocument.roots
  { texts := lists.1
    textsInViewport := lists.2.1
    textsVisibleInViewport := lists.2.2
    wordCount := (splitOnChar ' ' (String.intercalate " " lists.1).data).length
    wordCountInViewport :=
      (splitOnChar ' ' (String.intercalate " " lists.2.1).data).length
    wordCountVisibleInViewport :=
      (splitOnChar ' ' (String.intercalate " " lists.2.2).data).length }

/-- Number of space-separated fields of a list of texts joined with `" "`:
one more than the number of space characters in the joined string. -/
def countSpaceSeparatedFields (texts : List String) : Nat :=
  (String.intercalate " " texts).data.count ' ' + 1

/-- The spec's example page text (long enough to clear the 100-character
detection threshold), used as a concrete test fixture. -/
def exampleLongText : String :=
  "Hello world. This is a test sentence for detection and translation purposes, long enough to pass threshold checks easily here."

/-- The add-patch that `attemptToDetectLanguage` schedules to save the
detector's result in per-frame extension state. -/
def detectedLanguageResultsPatch (result : DetectedLanguageResults) : Effect :=
  Effect.patchDocumentTranslationState
    [{ op := "add", path := ["detectedLanguageResults"],
       value := PatchValue.detected result }]

theorem detectionSample_length_le (texts : List String) :
    (detectionSample texts).length ≤ 60 * 1024 := by
  simp only [detectionSample, domElementsToStringWithMaxLength, String.length_mk,
    List.length_take]
  omega

/-- Characterisation of `attemptToDetectLanguage` on a web (http/https) URL:
after the `DETECTING_LANGUAGE` broadcast, the run is decided by the sample
length, then by the liveness of the content window, then by the confidence
of the detector's result. -/
theorem attemptToDetectLanguage_web (doc : Document) (result : DetectedLanguageResults)
    (alive : Bool)
    (hweb : jsStartsWith doc.location "http://" = true ∨
      jsStartsWith doc.location "https://" = true) :
    attemptToDetectLanguage doc result alive =
      broadcastUpdatedTranslationStatus TranslationStatus.DETECTING_LANGUAGE ::
        (if (detectionSample doc.translationNodeTexts).length < 100 then
           [broadcastUpdatedTranslationStatus TranslationStatus.LANGUAGE_NOT_DETECTED]
         else
           Effect.detectLanguage (detectionSample doc.translationNodeTexts) ::
             (if alive then
                detectedLanguageResultsPatch result ::
                  (if result.confident then
                     [broadcastUpdatedTranslationStatus TranslationStatus.OFFER]
                   else
                     [broadcastUpdatedTranslationStatus
                        TranslationStatus.LANGUAGE_NOT_DETECTED])
              else [Effect.deleteDocumentTranslationState])) := by
  have hcond : (!(jsStartsWith doc.location "http://") &&
      !(jsStartsWith doc.location "https://")) = false := by
    rcases hweb with h | h <;> simp [h]
  cases alive <;> cases hc : result.confident <;>
    simp [attemptToDetectLanguage, hcond, detectionSample,
      domElementsToStringWithMaxLength, detectedLanguageResultsPatch, hc]

/-- Folding `scheduleBroadcast` over a list of statuses appends one deferred
task per status, in call order. -/
theorem foldl_scheduleBroadcast_tasks (statuses : List TranslationStatus)
    (acc : List Effect) :
    (statuses.foldl scheduleBroadcast { tasks := acc }).tasks =
      acc ++ statuses.map broadcastUpdatedTranslationStatus := by
  induction statuses generalizing acc with
  | nil => simp
  | cons s rest ih =>
    simp only [List.foldl_cons, List.map_cons, scheduleBroadcast]
    rw [ih]
    simp

/-- C1: for every `doTranslation(aFrom, aTo)` run, the effect trace opens
with the `TRANSLATING` broadcast; if the batching translator's `translate()`
promise rejects, the trace ends with the `ERROR` broadcast and the stored
translation document's `translationError` flag is `true` (the rejection is
absorbed by the `catch`, so `doTranslation` still returns a normal trace);
if `translate()` resolves, `showTranslation()` is invoked on the document
and the trace ends with the `TRANSLATED` broadcast (and the error flag is
`false`). -/
theorem doTranslation_translate_settlement (cw : ContentWindow) (doc : Document)
    (aFrom aTo : String) (translateOutcome : Except String Unit) (alive : Bool) :
    (doTranslation cw doc aFrom aTo translateOutcome alive).events =
      broadcastUpdatedTranslationStatus TranslationStatus.TRANSLATING ::
        (match translateOutcome with
         | Except.ok _ =>
             [Effect.showTranslation,
              broadcastUpdatedTranslationStatus TranslationStatus.TRANSLATED]
         | Except.error _ =>
             [broadcastUpdatedTranslationStatus TranslationStatus.ERROR]) ∧
    (doTranslation cw doc aFrom aTo
          translateOutcome alive).contentWindow.translationDocument.map
        TranslationDocument.translationError =
      some (match translateOutcome with
            | Except.ok _ => false
            | Except.error _ => true) := by
  cases translateOutcome <;> simp [doTranslation]

/-- C2: `doTranslation` stores exactly one `TranslationDocument` on the
content window; it is the one already stored there when one exists (keeping
that model's roots, hence the original source text, as the basis of the new
translation), and a freshly extracted one only when none exists. -/
theorem doTranslation_single_translationDocument (cw : ContentWindow) (doc : Document)
    (aFrom aTo : String) (translateOutcome : Except String Unit) (alive : Bool) :
    ∃ td : TranslationDocument,
      (doTranslation cw doc aFrom aTo
          translateOutcome alive).contentWindow.translationDocument = some td ∧
      td.roots = (match cw.translationDocument with
                  | some existing => existing.roots
                  | none => (TranslationDocument.new doc).roots) ∧
      td.translatedFrom = some aFrom ∧ td.translatedTo = some aTo := by
  cases translateOutcome <;> cases h : cw.translationDocument <;>
    simp [doTranslation, h]

/-- C3: when the document's URL starts with neither `"http://"` nor
`"https://"`, the only effect of `attemptToDetectLanguage` is the
`UNAVAILABLE` status broadcast: no other status (in particular not
`DETECTING_LANGUAGE`) is broadcast and the language detector is never
called. -/
theorem attemptToDetectLanguage_non_web_url (doc : Document)
    (result : DetectedLanguageResults) (alive : Bool)
    (h1 : jsStartsWith doc.location "http://" = false)
    (h2 : jsStartsWith doc.location "https://" = false) :
    attemptToDetectLanguage doc result alive =
      [broadcastUpdatedTranslationStatus TranslationStatus.UNAVAILABLE] ∧
    (∀ sample, Effect.detectLanguage sample ∉ attemptToDetectLanguage doc result alive) ∧
    (∀ st, broadcastUpdatedTranslationStatus st ∈ attemptToDetectLanguage doc result alive →
      st = TranslationStatus.UNAVAILABLE) := by
  have hmain : attemptToDetectLanguage doc result alive =
      [broadcastUpdatedTranslationStatus TranslationStatus.UNAVAILABLE] := by
    simp [attemptToDetectLanguage, h1, h2]
  refine ⟨hmain, ?_, ?_⟩
  · intro sample
    rw [hmain]
    simp [broadcastUpdatedTranslationStatus]
  · intro st hst
    rw [hmain] at hst
    simpa [broadcastUpdatedTranslationStatus] using hst

/-- C3 witness: the spec's `file:///local.html` scenario. -/
theorem attemptToDetectLanguage_non_web_url_witness :
    jsStartsWith "file:///local.html" "http://" = false ∧
    jsStartsWith "file:///local.html" "https://" = false ∧
    attemptToDetectLanguage
        { location := "file:///local.html", translationNodeTexts := [],
          extractedRoots := [] }
        { language := "en", confident := true } true =
      [broadcastUpdatedTranslationStatus TranslationStatus.UNAVAILABLE] :=
  ⟨by decide, by decide,
   (attemptToDetectLanguage_non_web_url
      { location := "file:///local.html", translationNodeTexts := [],
        extractedRoots := [] }
      { language := "en", confident := true } true (by decide) (by decide)).1⟩

/-- C4: on a web URL, whenever the language detector is called its sample is
the translation nodes' text contents joined by `"\n"` and truncated to the
first `60 * 1024 = 61440` characters (so its length never exceeds 61440);
and when that sample is shorter than 100 characters, the run is exactly the
`DETECTING_LANGUAGE` broadcast followed by the `LANGUAGE_NOT_DETECTED`
broadcast — the detector is never called. -/
theorem attemptToDetectLanguage_sample_gate (doc : Document)
    (result : DetectedLanguageResults) (alive : Bool)
    (hweb : jsStartsWith doc.location "http://" = true ∨
      jsStartsWith doc.location "https://" = true) :
    (∀ sample, Effect.detectLanguage sample ∈ attemptToDetectLanguage doc result alive →
      sample =
        String.mk ((String.intercalate "\n" doc.translationNodeTexts).data.take (60 * 1024)) ∧
      sample.length ≤ 61440) ∧
    ((detectionSample doc.translationNodeTexts).length < 100 →
      attemptToDetectLanguage doc result alive =
        [broadcastUpdatedTranslationStatus TranslationStatus.DETECTING_LANGUAGE,
         broadcastUpdatedTranslationStatus TranslationStatus.LANGUAGE_NOT_DETECTED]) := by
  rw [attemptToDetectLanguage_web doc result alive hweb]
  constructor
  · intro sample hmem
    by_cases hlen : (detectionSample doc.translationNodeTexts).length < 100
    · rw [if_pos hlen] at hmem
      simp [broadcastUpdatedTranslationStatus] at hmem
    · rw [if_neg hlen] at hmem
      have hsample : sample = detectionSample doc.translationNodeTexts := by
        cases alive <;> cases hc : result.confident <;>
          simp [hc, broadcastUpdatedTranslationStatus,
            detectedLanguageResultsPatch] at hmem <;> exact hmem
      refine ⟨?_, ?_⟩
      · rw [hsample]
        rfl
      · rw [hsample]
        exact detectionSample_length_le doc.translationNodeTexts
  · intro hlen
    rw [if_pos hlen]

/-- C4 witness: `https://example.com` with a 2-character sample. -/
theorem attemptToDetectLanguage_sample_gate_witness :
    (jsStartsWith "https://example.com" "http://" = true ∨
     jsStartsWith "https://example.com" "https://" = true) ∧
    (detectionSample ["hi"]).length < 100 ∧
    attemptToDetectLanguage
        { location := "https://example.com", translationNodeTexts := ["hi"],
          extractedRoots := [] }
        { language := "en", confident := true } true =
      [broadcastUpdatedTranslationStatus TranslationStatus.DETECTING_LANGUAGE,
       broadcastUpdatedTranslationStatus TranslationStatus.LANGUAGE_NOT_DETECTED] :=
  ⟨Or.inr (by decide), by decide,
   (attemptToDetectLanguage_sample_gate
      { location := "https://example.com", translationNodeTexts := ["hi"],
        extractedRoots := [] }
      { language := "en", confident := true } true (Or.inr (by decide))).2 (by decide)⟩

/-- C5: when the detector's result arrives with the content window still
valid (on a web URL with a long-enough sample), a non-confident result makes
the run end with the `LANGUAGE_NOT_DETECTED` broadcast, and a confident
result makes it end with the `OFFER` broadcast, the result having been saved
to per-frame state by the preceding add-patch. -/
theorem attemptToDetectLanguage_confidence_gate (doc : Document)
    (result : DetectedLanguageResults)
    (hweb : jsStartsWith doc.location "http://" = true ∨
      jsStartsWith doc.location "https://" = true)
    (hlen : 100 ≤ (detectionSample doc.translationNodeTexts).length) :
    (result.confident = false →
      attemptToDetectLanguage doc result true =
        [broadcastUpdatedTranslationStatus TranslationStatus.DETECTING_LANGUAGE,
         Effect.detectLanguage (detectionSample doc.translationNodeTexts),
         detectedLanguageResultsPatch result,
         broadcastUpdatedTranslationStatus TranslationStatus.LANGUAGE_NOT_DETECTED]) ∧
    (result.confident = true →
      attemptToDetectLanguage doc result true =
        [broadcastUpdatedTranslationStatus TranslationStatus.DETECTING_LANGUAGE,
         Effect.detectLanguage (detectionSample doc.translationNodeTexts),
         detectedLanguageResultsPatch result,
         broadcastUpdatedTranslationStatus TranslationStatus.OFFER]) := by
  rw [attemptToDetectLanguage_web doc result true hweb, if_neg (Nat.not_lt.mpr hlen)]
  constructor <;> intro hc <;> simp [hc]

set_option maxRecDepth 8000 in
/-- C5 witness: a confident and a non-confident detection on the spec's
example page text. -/
theorem attemptToDetectLanguage_confidence_gate_witness :
    (jsStartsWith "https://example.com" "http://" = true ∨
     jsStartsWith "https://example.com" "https://" = true) ∧
    100 ≤ (detectionSample [exampleLongText]).length ∧
    attemptToDetectLanguage
        { location := "https://example.com", translationNodeTexts := [exampleLongText],
          extractedRoots := [] }
        { language := "en", confident := true } true =
      [broadcastUpdatedTranslationStatus TranslationStatus.DETECTING_LANGUAGE,
       Effect.detectLanguage (detectionSample [exampleLongText]),
       detectedLanguageResultsPatch { language := "en", confident := true },
       broadcastUpdatedTranslationStatus TranslationStatus.OFFER] ∧
    attemptToDetectLanguage
        { location := "https://example.com", translationNodeTexts := [exampleLongText],
          extractedRoots := [] }
        { language := "en", confident := false } true =
      [broadcastUpdatedTranslationStatus TranslationStatus.DETECTING_LANGUAGE,
       Effect.detectLanguage (detectionSample [exampleLongText]),
       detectedLanguageResultsPatch { language := "en", confident := false },
       broadcastUpdatedTranslationStatus TranslationStatus.LANGUAGE_NOT_DETECTED] := by
  have hlen : 100 ≤ (detectionSample [exampleLongText]).length := by
    simp only [exampleLongText]
    decide
  refine ⟨Or.inr (by decide), hlen, ?_, ?_⟩
  · exact (attemptToDetectLanguage_confidence_gate
      { location := "https://example.com", translationNodeTexts := [exampleLongText],
        extractedRoots := [] }
      { language := "en", confident := true } (Or.inr (by decide)) hlen).2 rfl
  · exact (attemptToDetectLanguage_confidence_gate
      { location := "https://example.com", translationNodeTexts := [exampleLongText],
        extractedRoots := [] }
      { language := "en", confident := false } (Or.inr (by decide)) hlen).1 rfl

/-- C6: when the content window reference has become invalid by the time the
detector's result arrives, the run is exactly `DETECTING_LANGUAGE`
broadcast, detector call, then the deletion of the frame's
document-translation state; the only patch in the whole trace is the
pre-result `DETECTING_LANGUAGE` broadcast — in particular no patch and no
status broadcast is issued for the result. -/
theorem attemptToDetectLanguage_stale_window (doc : Document)
    (result : DetectedLanguageResults)
    (hweb : jsStartsWith doc.location "http://" = true ∨
      jsStartsWith doc.location "https://" = true)
    (hlen : 100 ≤ (detectionSample doc.translationNodeTexts).length) :
    attemptToDetectLanguage doc result false =
      [broadcastUpdatedTranslationStatus TranslationStatus.DETECTING_LANGUAGE,
       Effect.detectLanguage (detectionSample doc.translationNodeTexts),
       Effect.deleteDocumentTranslationState] ∧
    (∀ ops, Effect.patchDocumentTranslationState ops ∈ attemptToDetectLanguage doc result false →
      ops = [{ op := "replace", path := ["translationStatus"],
               value := PatchValue.status TranslationStatus.DETECTING_LANGUAGE }]) := by
  have hmain : attemptToDetectLanguage doc result false =
      [broadcastUpdatedTranslationStatus TranslationStatus.DETECTING_LANGUAGE,
       Effect.detectLanguage (detectionSample doc.translationNodeTexts),
       Effect.deleteDocumentTranslationState] := by
    rw [attemptToDetectLanguage_web doc result false hweb, if_neg (Nat.not_lt.mpr hlen)]
    simp
  refine ⟨hmain, ?_⟩
  intro ops hops
  rw [hmain] at hops
  simpa [broadcastUpdatedTranslationStatus] using hops

set_option maxRecDepth 8000 in
/-- C6 witness: stale window on the spec's example page text. -/
theorem attemptToDetectLanguage_stale_window_witness :
    (jsStartsWith "https://stale.example" "http://" = true ∨
     jsStartsWith "https://stale.example" "https://" = true) ∧
    100 ≤ (detectionSample [exampleLongText]).length ∧
    attemptToDetectLanguage
        { location := "https://stale.example", translationNodeTexts := [exampleLongText],
          extractedRoots := [] }
        { language := "fr", confident := true } false =
      [broadcastUpdatedTranslationStatus TranslationStatus.DETECTING_LANGUAGE,
       Effect.detectLanguage (detectionSample [exampleLongText]),
       Effect.deleteDocumentTranslationState] := by
  have hlen : 100 ≤ (detectionSample [exampleLongText]).length := by
    simp only [exampleLongText]
    decide
  exact ⟨Or.inr (by decide), hlen,
    (attemptToDetectLanguage_stale_window
      { location := "https://stale.example", translationNodeTexts := [exampleLongText],
        extractedRoots := [] }
      { language := "fr", confident := true } (Or.inr (by decide)) hlen).1⟩

/-- C9: when the detector's result arrives with the content window still
valid, the `add` patch saving `detectedLanguageResults` is issued
unconditionally, right after the detector call and before the
confidence-dependent status broadcast — for a non-confident result just as
for a confident one. -/
theorem attemptToDetectLanguage_saves_result_unconditionally (doc : Document)
    (result : DetectedLanguageResults)
    (hweb : jsStartsWith doc.location "http://" = true ∨
      jsStartsWith doc.location "https://" = true)
    (hlen : 100 ≤ (detectionSample doc.translationNodeTexts).length) :
    attemptToDetectLanguage doc result true =
      [broadcastUpdatedTranslationStatus TranslationStatus.DETECTING_LANGUAGE,
       Effect.detectLanguage (detectionSample doc.translationNodeTexts),
       detectedLanguageResultsPatch result] ++
        (if result.confident then
           [broadcastUpdatedTranslationStatus TranslationStatus.OFFER]
         else
           [broadcastUpdatedTranslationStatus TranslationStatus.LANGUAGE_NOT_DETECTED]) ∧
    detectedLanguageResultsPatch result ∈ attemptToDetectLanguage doc result true := by
  have hmain : attemptToDetectLanguage doc result true =
      [broadcastUpdatedTranslationStatus TranslationStatus.DETECTING_LANGUAGE,
       Effect.detectLanguage (detectionSample doc.translationNodeTexts),
       detectedLanguageResultsPatch result] ++
        (if result.confident then
           [broadcastUpdatedTranslationStatus TranslationStatus.OFFER]
         else
           [broadcastUpdatedTranslationStatus TranslationStatus.LANGUAGE_NOT_DETECTED]) := by
    rw [attemptToDetectLanguage_web doc result true hweb, if_neg (Nat.not_lt.mpr hlen)]
    cases hc : result.confident <;> simp [hc]
  refine ⟨hmain, ?_⟩
  rw [hmain]
  simp

set_option maxRecDepth 8000 in
/-- C9 witness: a non-confident result is still saved to state. -/
theorem attemptToDetectLanguage_saves_result_unconditionally_witness :
    (jsStartsWith "https://nonconfident.example" "http://" = true ∨
     jsStartsWith "https://nonconfident.example" "https://" = true) ∧
    100 ≤ (detectionSample [exampleLongText]).length ∧
    detectedLanguageResultsPatch { language := "de", confident := false } ∈
      attemptToDetectLanguage
        { location := "https://nonconfident.example",
          translationNodeTexts := [exampleLongText], extractedRoots := [] }
        { language := "de", confident := false } true := by
  have hlen : 100 ≤ (detectionSample [exampleLongText]).length := by
    simp only [exampleLongText]
    decide
  exact ⟨Or.inr (by decide), hlen,
    (attemptToDetectLanguage_saves_result_unconditionally
      { location := "https://nonconfident.example",
        translationNodeTexts := [exampleLongText], extractedRoots := [] }
      { language := "de", confident := false } (Or.inr (by decide)) hlen).2⟩

/-- C7 counterexample: with the owning frame already dead when `translate()`
resolves (`windowAliveAtResult = false`), `doTranslation` still applies the
result — `showTranslation()` is invoked on the dead frame's document and the
`TRANSLATED` status is still broadcast — so the in-flight result is not
discarded. -/
theorem doTranslation_applies_result_to_dead_frame :
    Effect.showTranslation ∈
      (doTranslation { translationDocument := none }
        { location := "https://example.com", translationNodeTexts := [],
          extractedRoots := [] }
        "en" "de" (Except.ok ()) false).events ∧
    broadcastUpdatedTranslationStatus TranslationStatus.TRANSLATED ∈
      (doTranslation { translationDocument := none }
        { location := "https://example.com", translationNodeTexts := [],
          extractedRoots := [] }
        "en" "de" (Except.ok ()) false).events := by
  decide

/-- C7 (amended): `doTranslation` has no owner-liveness staleness guard: its
behaviour is identical whatever the liveness of the owning frame when the
batching translator's call settles, and on success `showTranslation()` is
applied even when the frame is dead — unlike `attemptToDetectLanguage`,
which does guard its in-flight detection result. -/
theorem doTranslation_ignores_window_liveness (cw : ContentWindow) (doc : Document)
    (aFrom aTo : String) (translateOutcome : Except String Unit) (alive : Bool) :
    doTranslation cw doc aFrom aTo translateOutcome alive =
      doTranslation cw doc aFrom aTo translateOutcome true ∧
    (∀ u, translateOutcome = Except.ok u →
      Effect.showTranslation ∈
        (doTranslation cw doc aFrom aTo translateOutcome alive).events) := by
  refine ⟨rfl, ?_⟩
  rintro u rfl
  simp [doTranslation]

/-- C7 witness: the amended theorem applied to a successful translation in a
dead frame. -/
theorem doTranslation_ignores_window_liveness_witness :
    (Except.ok () : Except String Unit) = Except.ok () ∧
    Effect.showTranslation ∈
      (doTranslation { translationDocument := none }
        { location := "https://dead.example", translationNodeTexts := [],
          extractedRoots := [] }
        "en" "es" (Except.ok ()) false).events :=
  ⟨rfl,
   (doTranslation_ignores_window_liveness { translationDocument := none }
      { location := "https://dead.example", translationNodeTexts := [],
        extractedRoots := [] }
      "en" "es" (Except.ok ()) false).2 () rfl⟩

/-- C8: each call to `broadcastUpdatedTranslationStatus` enqueues its own
deferred task, and draining the timeout queue delivers exactly one patch
notification per call, in call order, each consisting of the single
`replace` operation on `translationStatus` carrying that call's status —
so a rapid sequence of status changes yields one observable notification
per change, never a coalesced final value. -/
theorem broadcastUpdatedTranslationStatus_not_coalesced
    (statuses : List TranslationStatus) :
    runScheduler (statuses.foldl scheduleBroadcast Scheduler.empty) =
      statuses.map broadcastUpdatedTranslationStatus ∧
    (runScheduler (statuses.foldl scheduleBroadcast Scheduler.empty)).length =
      statuses.length ∧
    (∀ s, broadcastUpdatedTranslationStatus s =
      Effect.patchDocumentTranslationState
        [{ op := "replace", path := ["translationStatus"],
           value := PatchValue.status s }]) := by
  have hmain : runScheduler (statuses.foldl scheduleBroadcast Scheduler.empty) =
      statuses.map broadcastUpdatedTranslationStatus := by
    simpa [runScheduler, Scheduler.empty] using
      foldl_scheduleBroadcast_tasks statuses []
  refine ⟨hmain, ?_, fun s => rfl⟩
  rw [hmain]
  simp

/-- C10: every reported word count of `getDocumentTranslationStatistics`
equals the number of space-separated fields of the corresponding list of
texts joined with `" "` (one more than the number of spaces in the joined
string); in particular each count is at least 1, and it is exactly 1 — never
0 — when the corresponding list of texts is empty. -/
theorem getDocumentTranslationStatistics_word_counts (cw : ContentWindow)
    (doc : Document) (inViewport : Nat → Bool) (visibleNodes : List Nat) :
    (getDocumentTranslationStatistics cw doc inViewport visibleNodes).wordCount =
      countSpaceSeparatedFields
        (getDocumentTranslationStatistics cw doc inViewport visibleNodes).texts ∧
    (getDocumentTranslationStatistics cw doc inViewport visibleNodes).wordCountInViewport =
      countSpaceSeparatedFields
        (getDocumentTranslationStatistics cw doc inViewport visibleNodes).textsInViewport ∧
    (getDocumentTranslationStatistics cw doc inViewport
          visibleNodes).wordCountVisibleInViewport =
      countSpaceSeparatedFields
        (getDocumentTranslationStatistics cw doc inViewport
          visibleNodes).textsVisibleInViewport ∧
    ((getDocumentTranslationStatistics cw doc inViewport visibleNodes).texts = [] →
      (getDocumentTranslationStatistics cw doc inViewport visibleNodes).wordCount = 1) ∧
    ((getDocumentTranslationStatistics cw doc inViewport visibleNodes).textsInViewport = [] →
      (getDocumentTranslationStatistics cw doc inViewport
        visibleNodes).wordCountInViewport = 1) ∧
    ((getDocumentTranslationStatistics cw doc inViewport
          visibleNodes).textsVisibleInViewport = [] →
      (getDocumentTranslationStatistics cw doc inViewport
        visibleNodes).wordCountVisibleInViewport = 1) ∧
    1 ≤ (getDocumentTranslationStatistics cw doc inViewport visibleNodes).wordCount ∧
    1 ≤ (getDocumentTranslationStatistics cw doc inViewport
          visibleNodes).wordCountInViewport ∧
    1 ≤ (getDocumentTranslationStatistics cw doc inViewport
          visibleNodes).wordCountVisibleInViewport := by
  unfold getDocumentTranslationStatistics countSpaceSeparatedFields
  refine ⟨?_, ?_, ?_, ?_, ?_, ?_, ?_, ?_, ?_⟩ <;>
    simp only [splitOnChar_length] <;>
    first
      | rfl
      | (intro h
         rw [h]
         decide)
      | omega

/-- C10 witness: the counts evaluated on an empty document (no roots at all):
all three text lists are empty and all three word counts are 1. -/
theorem getDocumentTranslationStatistics_word_counts_witness :
    (getDocumentTranslationStatistics { translationDocument := none }
        { location := "https://empty.example", translationNodeTexts := [],
          extractedRoots := [] }
        (fun _ => true) []).texts = [] ∧
    (getDocumentTranslationStatistics { translationDocument := none }
        { location := "https://empty.example", translationNodeTexts := [],
          extractedRoots := [] }
        (fun _ => true) []).wordCount = 1 :=
  ⟨rfl,
   (getDocumentTranslationStatistics_word_counts { translationDocument := none }
      { location := "https://empty.example", translationNodeTexts := [],
        extractedRoots := [] }
      (fun _ => true) []).2.2.2.1 rfl⟩

end Bergamot
